import Mathlib

/-!
Verification of the DJ-Pilot signaling-server core (the Express/Socket.io
server embedded in the repository).  The room registry, the `join-room`
handler, the signaling relay with its rate limit, the mute controls, the
disconnect cleanup and the periodic sweep are embedded below as executable
Lean functions translated directly from the source; the claim theorems at the
end of the file are stated and proved against these definitions.
-/

namespace DJPilot

/-- A room as stored in the server's `rooms` map:
`{ host: socketId | null, listeners: Set<socketId>, createdAt }`.
The JS `Set` keeps insertion order and has no duplicates, which `setAdd` /
`setDel` below preserve, so it is embedded as a `List String`. -/
structure Room where
  host : Option String
  listeners : List String
  createdAt : Nat
deriving Repr, DecidableEq

/-- Per-socket state the server keeps: the ad hoc fields `socket.roomId` and
`socket.role` written by the `join-room` handler, plus the socket.io channels
the socket has entered via `socket.join` (every socket is additionally always
a member of the channel named by its own id). -/
structure Session where
  roomId : Option String
  role : Option String
  channels : List String
deriving Repr, DecidableEq

/-- A socket that has connected but not joined anything. -/
def freshSession : Session := { roomId := none, role := none, channels := [] }

/-- The server's mutable state: the `rooms` map and the connected sockets.
JS `Map`s have unique keys; the association-list operations below preserve
key uniqueness. -/
structure SrvState where
  rooms : List (String × Room)
  sessions : List (String × Session)
deriving Repr, DecidableEq

/-- `m.get(key)` on a JS `Map` embedded as an association list. -/
def alGet {α : Type} : List (String × α) → String → Option α
  | [], _ => none
  | (k, v) :: m, key => if k = key then some v else alGet m key

/-- `m.set(key, v)`: replace the binding if the key is present, else append. -/
def alSet {α : Type} : List (String × α) → String → α → List (String × α)
  | [], key, v => [(key, v)]
  | (k, w) :: m, key, v =>
    if k = key then (key, v) :: m else (k, w) :: alSet m key v

/-- `m.delete(key)`. -/
def alDel {α : Type} (m : List (String × α)) (key : String) : List (String × α) :=
  m.filter (fun p => !(p.1 = key : Bool))

/-- `s.add(x)` on a JS `Set` (no-op when already present, else appended). -/
def setAdd (l : List String) (x : String) : List String :=
  if l.contains x then l else l ++ [x]

/-- `s.delete(x)` on a JS `Set`. -/
def setDel (l : List String) (x : String) : List String :=
  l.filter (fun y => !(y = x : Bool))

/-- The outbound socket.io events the core emits. -/
inductive Event where
  | error (msg : String)
  | hostJoined (roomId : String)
  | listenerJoinedRoom (roomId : String)
  | listenerJoinedId (listenerId : String)
  | hostConnected
  | hostDisconnected
  | listenerLeft (listenerId : String)
  | listenerCountUpdated (count : Nat)
  | hostMuted
  | hostUnmuted
  | sigOffer (fromSid : String)
  | sigAnswer (fromSid : String)
  | sigIceCandidate (fromSid : String)
deriving Repr, DecidableEq

/-- An emission: `socket.emit(e)` is a direct message to the socket itself;
`socket.to(ch).emit(e)` is a broadcast to channel `ch` excluding the sender. -/
inductive Emit where
  | direct (target : String) (e : Event)
  | chan (sender : String) (ch : String) (e : Event)
deriving Repr, DecidableEq

/-- The event carried by an emission. -/
def Emit.event : Emit → Event
  | .direct _ e => e
  | .chan _ _ e => e

/-- socket.io channel membership: a live socket is in the channel named by its
own id and in every channel it entered with `socket.join`. -/
def inChan (st : SrvState) (ch tgt : String) : Bool :=
  match alGet st.sessions tgt with
  | some s => ch = tgt || s.channels.contains ch
  | none => false

/-- Whether socket `tgt` receives emission `em` (socket.io delivery:
`socket.to(ch)` reaches every channel member except the sender). -/
def canReceive (st : SrvState) (em : Emit) (tgt : String) : Bool :=
  match em with
  | .direct t _ => t = tgt
  | .chan sender ch _ => !(tgt = sender : Bool) && inChan st ch tgt

/-- Whether, among the emissions `emits`, socket `tgt` receives event `e`. -/
def delivered (st : SrvState) (emits : List Emit) (tgt : String) (e : Event) : Bool :=
  emits.any (fun em => canReceive st em tgt && em.event = e)

/-- The `roomId` field of a `join-room` payload as seen by the handler:
absent, present but not a string, or an actual string. -/
inductive RoomIdArg where
  | missing
  | nonString
  | str (s : String)
deriving Repr, DecidableEq

/-- The guard `!roomId || typeof roomId !== "string" || roomId.length > 10`.
A missing or non-string value always trips one of the first two disjuncts
(falsy non-strings trip `!roomId`, truthy ones the `typeof` test); for a
string, `!roomId` is truth of `roomId == ""`. -/
def roomIdInvalid : RoomIdArg → Bool
  | .missing => true
  | .nonString => true
  | .str s => s.isEmpty || decide (s.length > 10)

/-- `function handleHostJoin(socket, room, roomId)`. -/
def handleHostJoin (sid : String) (room : Room) (roomId : String) :
    Room × List Emit :=
  match room.host with
  | some _ => (room, [.direct sid (.error "Room already has a host")])
  | none =>
    let room' : Room := { room with host := some sid }
    (room', .direct sid (.hostJoined roomId) ::
      room'.listeners.flatMap (fun lid =>
        [.chan sid lid .hostConnected, .direct sid (.listenerJoinedId lid)]))

/-- `function handleListenerJoin(socket, room, roomId)`. -/
def handleListenerJoin (sid : String) (room : Room) (roomId : String) :
    Room × List Emit :=
  let room' : Room := { room with listeners := setAdd room.listeners sid }
  let hostEmits : List Emit :=
    match room'.host with
    | some h => [.chan sid h (.listenerJoinedId sid), .direct sid .hostConnected]
    | none => []
  (room', .direct sid (.listenerJoinedRoom roomId) :: hostEmits ++
    [.chan sid roomId (.listenerCountUpdated room'.listeners.length)])

/-- The `socket.on("join-room", ...)` handler: validate the room id, create
the room if absent (subject to `config.maxRooms`), enter the channel, record
`socket.roomId` and `socket.role`, then dispatch on the role. -/
def joinRoom (maxRooms : Nat) (st : SrvState) (sid : String) (arg : RoomIdArg)
    (role : String) (now : Nat) : SrvState × List Emit :=
  if roomIdInvalid arg then
    (st, [.direct sid (.error "Invalid room ID")])
  else
    match arg with
    | .str roomId =>
      if (alGet st.rooms roomId).isNone && decide (st.rooms.length ≥ maxRooms) then
        (st, [.direct sid (.error "Server at capacity")])
      else
        let rooms0 :=
          if (alGet st.rooms roomId).isNone then
            alSet st.rooms roomId { host := none, listeners := [], createdAt := now }
          else st.rooms
        let room := (alGet rooms0 roomId).getD
          { host := none, listeners := [], createdAt := now }
        let sess0 := (alGet st.sessions sid).getD freshSession
        let sess : Session :=
          { roomId := some roomId, role := some role,
            channels := setAdd sess0.channels roomId }
        let st1 : SrvState :=
          { rooms := rooms0, sessions := alSet st.sessions sid sess }
        if role = "host" then
          let hr := handleHostJoin sid room roomId
          ({ st1 with rooms := alSet st1.rooms roomId hr.1 }, hr.2)
        else if role = "listener" then
          let lr := handleListenerJoin sid room roomId
          ({ st1 with rooms := alSet st1.rooms roomId lr.1 }, lr.2)
        else (st1, [])
    | _ => (st, [.direct sid (.error "Invalid room ID")])

/-- `function handleDisconnect(socket)`. -/
def handleDisconnect (st : SrvState) (sid : String) : SrvState × List Emit :=
  let sess := (alGet st.sessions sid).getD freshSession
  match sess.roomId with
  | none => (st, [])
  | some rid =>
    match alGet st.rooms rid with
    | none => (st, [])
    | some room =>
      if sess.role = some "host" && room.host = some sid then
        let room' : Room := { room with host := none }
        let emits : List Emit := [.chan sid rid .hostDisconnected]
        if room'.listeners.length = 0 then
          ({ st with rooms := alDel st.rooms rid }, emits)
        else
          ({ st with rooms := alSet st.rooms rid room' }, emits)
      else if sess.role = some "listener" then
        let room' : Room := { room with listeners := setDel room.listeners sid }
        let hostEmits : List Emit :=
          match room'.host with
          | some h => [.chan sid h (.listenerLeft sid)]
          | none => []
        let emits := hostEmits ++
          [.chan sid rid (.listenerCountUpdated room'.listeners.length)]
        if room'.host = none && room'.listeners.length = 0 then
          ({ st with rooms := alDel st.rooms rid }, emits)
        else
          ({ st with rooms := alSet st.rooms rid room' }, emits)
      else (st, [])

/-- `socket.on("mute-stream", ...)`: guarded only by the socket's own recorded
`role` field and the truthiness of its recorded `roomId`. -/
def muteStream (st : SrvState) (sid : String) : List Emit :=
  let sess := (alGet st.sessions sid).getD freshSession
  if sess.role = some "host" then
    match sess.roomId with
    | some rid => if rid.isEmpty then [] else [.chan sid rid .hostMuted]
    | none => []
  else []

/-- `socket.on("unmute-stream", ...)`. -/
def unmuteStream (st : SrvState) (sid : String) : List Emit :=
  let sess := (alGet st.sessions sid).getD freshSession
  if sess.role = some "host" then
    match sess.roomId with
    | some rid => if rid.isEmpty then [] else [.chan sid rid .hostUnmuted]
    | none => []
  else []

/-- The kinds of relayed signaling messages. -/
inductive SigKind where
  | offer
  | answer
  | ice
deriving Repr, DecidableEq

/-- The forwarded payload `{ from: socket.id, ... }` for each relay kind. -/
def sigEvent : SigKind → String → Event
  | .offer, s => .sigOffer s
  | .answer, s => .sigAnswer s
  | .ice, s => .sigIceCandidate s

/-- `function rateLimitSignal(socketId)` over the per-connection
`signalRateLimit` map: returns whether the message may be forwarded together
with the updated map.  `Date.now()` is embedded as the `now` argument. -/
def rateLimitSignal (rl : List (String × Nat)) (socketId : String) (now : Nat) :
    Bool × List (String × Nat) :=
  let lastSignal := (alGet rl socketId).getD 0
  if now - lastSignal < 50 then (false, rl)
  else (true, alSet rl socketId now)

/-- The `offer` / `answer` / `ice-candidate` handlers: forward to the target's
private channel only when the rate limiter admits the message; otherwise do
nothing at all. -/
def signalRelay (rl : List (String × Nat)) (k : SigKind) (sid toId : String)
    (now : Nat) : List (String × Nat) × List Emit :=
  let r := rateLimitSignal rl sid now
  if r.1 then (r.2, [.chan sid toId (sigEvent k sid)]) else (r.2, [])

/-- A sender's sequence of signaling attempts, each with its arrival time,
run through the relay: returns the forwarded arrival times, all emissions and
the final rate-limit map. -/
def runSignals (sid toId : String) (rl : List (String × Nat)) :
    List (SigKind × Nat) → List Nat × (List Emit × List (String × Nat))
  | [] => ([], ([], rl))
  | (k, t) :: rest =>
    let step := signalRelay rl k sid toId t
    let res := runSignals sid toId step.1 rest
    (if step.2.isEmpty then res.1 else t :: res.1, (step.2 ++ res.2.1, res.2.2))

/-- The REST view `GET /api/rooms/:roomId` returns. -/
structure RoomInfo where
  roomId : String
  hasHost : Bool
  listenerCount : Nat
  isActive : Bool
  createdAt : Nat
deriving Repr, DecidableEq

/-- `app.get("/api/rooms/:roomId", ...)`. -/
def getRoomApi (st : SrvState) (rid : String) : Option RoomInfo :=
  (alGet st.rooms rid).map (fun room =>
    { roomId := rid, hasHost := room.host.isSome,
      listenerCount := room.listeners.length,
      isActive := room.host.isSome, createdAt := room.createdAt })

/-- `app.post("/api/rooms", ...)`: the generated id (`generateRoomId` retries
until fresh, so it is passed in as `genId`) is inserted unless the registry is
at capacity. -/
def postRooms (maxRooms : Nat) (st : SrvState) (genId : String) (now : Nat) :
    SrvState × Except String String :=
  if st.rooms.length ≥ maxRooms then
    (st, .error "Maximum number of rooms reached")
  else
    let rooms' :=
      if (alGet st.rooms genId).isSome then st.rooms
      else alSet st.rooms genId { host := none, listeners := [], createdAt := now }
    ({ st with rooms := rooms' }, .ok genId)

/-- The periodic cleanup `setInterval` body: delete every hostless, listenerless
room older than `config.roomTimeout` hours. -/
def sweepRooms (roomTimeoutHours : Nat) (st : SrvState) (now : Nat) : SrvState :=
  let maxAge := roomTimeoutHours * 60 * 60 * 1000
  { st with rooms := st.rooms.filter (fun p =>
      !(p.2.host = none && p.2.listeners.length = 0 &&
        decide (now - p.2.createdAt > maxAge))) }

/-! ### Lemmas about the map and set embeddings -/

theorem alGet_alSet_self {α : Type} (m : List (String × α)) (k : String) (v : α) :
    alGet (alSet m k v) k = some v := by
  induction m with
  | nil => simp [alGet, alSet]
  | cons p m ih =>
    by_cases h : p.1 = k
    · simp [alGet, alSet, h]
    · simp [alGet, alSet, h, ih]

theorem alSet_alSet {α : Type} (m : List (String × α)) (k : String) (v w : α) :
    alSet (alSet m k v) k w = alSet m k w := by
  induction m with
  | nil => simp [alSet]
  | cons p m ih =>
    by_cases h : p.1 = k
    · simp [alSet, h]
    · cases p with
      | mk k' v' =>
        simp only at h
        simp [alSet, h, ih]

theorem alSet_eq_self {α : Type} (m : List (String × α)) (k : String) (v : α)
    (h : alGet m k = some v) : alSet m k v = m := by
  induction m with
  | nil => simp [alGet] at h
  | cons p m ih =>
    by_cases hk : p.1 = k
    · simp [alGet, hk] at h
      cases p with
      | mk k' v' => simp_all [alSet]
    · simp [alGet, hk] at h
      cases p with
      | mk k' v' =>
        simp only at hk
        simp [alSet, hk, ih h]

theorem alGet_alDel_self {α : Type} (m : List (String × α)) (k : String) :
    alGet (alDel m k) k = none := by
  induction m with
  | nil => simp [alDel, alGet]
  | cons p m ih =>
    by_cases h : p.1 = k
    · simpa [alDel, List.filter, h] using ih
    · simpa [alDel, List.filter, h, alGet] using ih

theorem alSet_of_none {α : Type} (m : List (String × α)) (k : String) (v : α)
    (h : alGet m k = none) : alSet m k v = m ++ [(k, v)] := by
  induction m with
  | nil => simp [alSet]
  | cons p m ih =>
    by_cases hk : p.1 = k
    · simp [alGet, hk] at h
    · cases p with
      | mk k' v' =>
        simp only at hk
        simp [alGet, hk] at h
        simp [alSet, hk, ih h]

theorem alGet_filter_none {α : Type} (m : List (String × α)) (k : String)
    (p : String × α → Bool) (h : alGet m k = none) :
    alGet (m.filter p) k = none := by
  induction m with
  | nil => simp [alGet]
  | cons q m ih =>
    by_cases hk : q.1 = k
    · simp [alGet, hk] at h
    · simp only [alGet, hk, if_false] at h
      by_cases hp : p q
      · simp [List.filter, hp, alGet, hk, ih h]
      · simp [List.filter, hp, ih h]

theorem alGet_append_left_none {α : Type} (m m' : List (String × α)) (k : String)
    (h : alGet m k = none) : alGet (m ++ m') k = alGet m' k := by
  induction m with
  | nil => simp
  | cons q m ih =>
    by_cases hk : q.1 = k
    · simp [alGet, hk] at h
    · simp only [alGet, hk, if_false] at h
      simpa [alGet, hk] using ih h

/-- Forwarded times of a signaling run are separated by at least 50ms, and the
first of them is at least 50ms after the stored last-forwarded time. -/
theorem runSignals_chain (sid toId : String) :
    ∀ (ts : List (SigKind × Nat)) (rl : List (String × Nat)),
      List.Chain' (· ≤ ·) (ts.map Prod.snd) →
      List.Chain' (fun a b => a + 50 ≤ b)
        ((alGet rl sid).getD 0 :: (runSignals sid toId rl ts).1) := by
  intro ts
  induction ts with
  | nil => intro rl _; simp [runSignals]
  | cons kt rest ih =>
    intro rl hsorted
    obtain ⟨k, t⟩ := kt
    have hrest : List.Chain' (· ≤ ·) (rest.map Prod.snd) := hsorted.tail
    by_cases hdrop : t - (alGet rl sid).getD 0 < 50
    · have := ih rl hrest
      simpa [runSignals, signalRelay, rateLimitSignal, hdrop] using this
    · have hfwd := ih (alSet rl sid t) hrest
      rw [alGet_alSet_self] at hfwd
      simp only [Option.getD_some] at hfwd
      have hge : (alGet rl sid).getD 0 + 50 ≤ t := by omega
      simp only [runSignals, signalRelay, rateLimitSignal, hdrop, if_false,
        if_true, List.isEmpty_cons]
      simpa [List.chain'_cons] using And.intro hge hfwd

/-! ### Concrete scenario states used by witnesses and counterexamples -/

/-- The server right after start: no rooms, no sockets. -/
def st0 : SrvState := { rooms := [], sessions := [] }

/-- Socket `H` joins room `R1` as host. -/
def demoHostJoin : SrvState × List Emit := joinRoom 100 st0 "H" (.str "R1") "host" 0

/-- Then socket `L` joins `R1` as listener. -/
def demoListenerJoin : SrvState × List Emit :=
  joinRoom 100 demoHostJoin.1 "L" (.str "R1") "listener" 0

/-- Then socket `F` attempts to join `R1` as a second host. -/
def demoSecondHost : SrvState × List Emit :=
  joinRoom 100 demoListenerJoin.1 "F" (.str "R1") "host" 0

/-! ### Claim theorems -/

/-- Claim C1: at most one connection is ever recorded as a room's host (the
`host` field is a single optional reference), and a `join-room` with role
`host` while the room's `host` field is set emits exactly
`error{message:"Room already has a host"}` to the joining socket and leaves
the room — in particular its `host` field, still the first host — unchanged. -/
theorem claim1_single_host (maxRooms : Nat) (st : SrvState) (sid rid : String)
    (now : Nat) (room : Room) (h : String)
    (hval : roomIdInvalid (.str rid) = false)
    (hroom : alGet st.rooms rid = some room)
    (hhost : room.host = some h) :
    (joinRoom maxRooms st sid (.str rid) "host" now).2 =
      [.direct sid (.error "Room already has a host")] ∧
    alGet (joinRoom maxRooms st sid (.str rid) "host" now).1.rooms rid =
      some room ∧ room.host = some h := by
  have hsome : (alGet st.rooms rid).isNone = false := by simp [hroom]
  simp only [joinRoom, hval, Bool.false_eq_true, if_false, hsome,
    Bool.false_and, hroom, Option.getD_some, handleHostJoin]
  simp [hroom, hhost, alGet_alSet_self]

/-- Closed instance of `claim1_single_host`: a second host is rejected in the
concrete two-socket scenario. -/
theorem claim1_single_host_witness :
    (joinRoom 100 demoHostJoin.1 "X" (.str "R1") "host" 0).2 =
      [.direct "X" (.error "Room already has a host")] ∧
    alGet (joinRoom 100 demoHostJoin.1 "X" (.str "R1") "host" 0).1.rooms "R1" =
      some { host := some "H", listeners := [], createdAt := 0 } ∧
    Room.host { host := some "H", listeners := [], createdAt := 0 } = some "H" :=
  claim1_single_host 100 demoHostJoin.1 "X" "R1" 0
    { host := some "H", listeners := [], createdAt := 0 } "H" (by decide) rfl rfl

/-- Claim C9: when a socket whose recorded role is `host` disconnects while the
room's `host` field names a different socket, `handleDisconnect` leaves the
whole server state unchanged and emits nothing: neither cleanup branch fires,
so the incumbent host, the listener set and the room's registry entry are all
preserved. -/
theorem claim9_foreign_host_disconnect_noop (st : SrvState) (sid rid : String)
    (sess : Session) (room : Room)
    (hs : alGet st.sessions sid = some sess)
    (hrid : sess.roomId = some rid)
    (hrole : sess.role = some "host")
    (hne : room.host ≠ some sid)
    (hroom : alGet st.rooms rid = some room) :
    handleDisconnect st sid = (st, []) := by
  have hne' : (room.host = some sid) = False := by
    simp [hne]
  simp [handleDisconnect, hs, hrid, hroom, hrole, hne']

/-- Closed instance of `claim9_foreign_host_disconnect_noop`: the rejected
second host `F` disconnects and the room state survives intact. -/
theorem claim9_foreign_host_disconnect_noop_witness :
    handleDisconnect demoSecondHost.1 "F" = (demoSecondHost.1, []) :=
  claim9_foreign_host_disconnect_noop demoSecondHost.1 "F" "R1"
    { roomId := some "R1", role := some "host", channels := ["R1"] }
    { host := some "H", listeners := ["L"], createdAt := 0 }
    rfl rfl rfl (by decide) rfl

/-- Claim C5: with the registry holding exactly `maxRooms` rooms, the explicit
`POST /api/rooms` creation fails with the capacity error and returns the state
unchanged, and a `join-room` naming an absent room id fails with
`error{message:"Server at capacity"}` with the state unchanged — so the number
of rooms is unaffected by either failed request. -/
theorem claim5_capacity (maxRooms : Nat) (st : SrvState) (genId : String)
    (now : Nat) (hfull : st.rooms.length = maxRooms) :
    postRooms maxRooms st genId now =
      (st, .error "Maximum number of rooms reached") ∧
    (∀ sid rid role, roomIdInvalid (.str rid) = false →
      alGet st.rooms rid = none →
      joinRoom maxRooms st sid (.str rid) role now =
        (st, [.direct sid (.error "Server at capacity")])) := by
  constructor
  · simp [postRooms, hfull]
  · intro sid rid role hval habs
    simp [joinRoom, hval, habs, hfull]

/-- Closed instance of `claim5_capacity` at `maxRooms = 1` with one room. -/
theorem claim5_capacity_witness :
    postRooms 1 demoHostJoin.1 "ZZZZ" 5 =
      (demoHostJoin.1, .error "Maximum number of rooms reached") ∧
    joinRoom 1 demoHostJoin.1 "Y" (.str "R2") "listener" 5 =
      (demoHostJoin.1, [.direct "Y" (.error "Server at capacity")]) := by
  have h := claim5_capacity 1 demoHostJoin.1 "ZZZZ" 5 rfl
  exact ⟨h.1, h.2 "Y" "R2" "listener" (by decide) rfl⟩

/-- Claim C4: when the socket recorded as a room's host disconnects, the
handler emits exactly one `host-disconnected` broadcast to the room channel
(received by every remaining channel member), and the room is deleted from the
registry exactly when its listener set is empty; with listeners remaining, the
room survives with `host` cleared and `GET /api/rooms/:roomId` then reports
`hasHost = false` with the listener count unchanged. -/
theorem claim4_host_disconnect (st : SrvState) (sid rid : String)
    (sess : Session) (room : Room)
    (hs : alGet st.sessions sid = some sess)
    (hrid : sess.roomId = some rid)
    (hrole : sess.role = some "host")
    (hroom : alGet st.rooms rid = some room)
    (hhost : room.host = some sid) :
    (handleDisconnect st sid).2 = [.chan sid rid .hostDisconnected] ∧
    (room.listeners.length = 0 →
      alGet (handleDisconnect st sid).1.rooms rid = none) ∧
    (room.listeners.length ≠ 0 →
      alGet (handleDisconnect st sid).1.rooms rid =
        some { room with host := none } ∧
      getRoomApi (handleDisconnect st sid).1 rid = some
        { roomId := rid, hasHost := false,
          listenerCount := room.listeners.length, isActive := false,
          createdAt := room.createdAt }) ∧
    (∀ l, l ≠ sid → inChan st rid l = true →
      delivered st (handleDisconnect st sid).2 l .hostDisconnected = true) := by
  by_cases hlen : room.listeners.length = 0
  · have hD : handleDisconnect st sid =
        ({ st with rooms := alDel st.rooms rid },
          [.chan sid rid .hostDisconnected]) := by
      simp [handleDisconnect, hs, hrid, hroom, hrole, hhost, hlen]
    rw [hD]
    refine ⟨rfl, fun _ => ?_, fun hne => absurd hlen hne, ?_⟩
    · simpa using alGet_alDel_self st.rooms rid
    · intro l hl hchan
      simp [delivered, canReceive, Emit.event, hl, hchan]
  · have hD : handleDisconnect st sid =
        ({ st with rooms := alSet st.rooms rid { room with host := none } },
          [.chan sid rid .hostDisconnected]) := by
      simp [handleDisconnect, hs, hrid, hroom, hrole, hhost, hlen]
    rw [hD]
    refine ⟨rfl, fun h0 => absurd h0 hlen, fun _ => ⟨?_, ?_⟩, ?_⟩
    · simp [alGet_alSet_self]
    · simp [getRoomApi, alGet_alSet_self]
    · intro l hl hchan
      simp [delivered, canReceive, Emit.event, hl, hchan]

/-- Closed instance of `claim4_host_disconnect`: the host `H` of a room with
one listener disconnects; the room survives hostless with count 1. -/
theorem claim4_host_disconnect_witness :
    (handleDisconnect demoListenerJoin.1 "H").2 =
      [.chan "H" "R1" .hostDisconnected] ∧
    ((["L"] : List String).length = 0 →
      alGet (handleDisconnect demoListenerJoin.1 "H").1.rooms "R1" = none) ∧
    ((["L"] : List String).length ≠ 0 →
      alGet (handleDisconnect demoListenerJoin.1 "H").1.rooms "R1" =
        some { host := none, listeners := ["L"], createdAt := 0 } ∧
      getRoomApi (handleDisconnect demoListenerJoin.1 "H").1 "R1" = some
        { roomId := "R1", hasHost := false, listenerCount := 1,
          isActive := false, createdAt := 0 }) ∧
    (∀ l, l ≠ "H" → inChan demoListenerJoin.1 "R1" l = true →
      delivered demoListenerJoin.1 (handleDisconnect demoListenerJoin.1 "H").2
        l .hostDisconnected = true) :=
  claim4_host_disconnect demoListenerJoin.1 "H" "R1"
    { roomId := some "R1", role := some "host", channels := ["R1"] }
    { host := some "H", listeners := ["L"], createdAt := 0 }
    rfl rfl rfl rfl rfl

/-- Claim C8: the `mute-stream` / `unmute-stream` guard reads only the
socket's own recorded `role` and `roomId` fields, never the room's `host`
field.  A socket whose host join was rejected with "Room already has a host"
still has `role = host` and the room id recorded, so its `mute-stream`
broadcasts `host-muted` to the room channel — and the actual host receives
it. -/
theorem claim8_mute_guard (maxRooms : Nat) (st : SrvState) (sid rid : String)
    (now : Nat) (room : Room) (h : String)
    (hval : roomIdInvalid (.str rid) = false)
    (hroom : alGet st.rooms rid = some room)
    (hhost : room.host = some h)
    (hne : h ≠ sid) :
    (joinRoom maxRooms st sid (.str rid) "host" now).2 =
      [.direct sid (.error "Room already has a host")] ∧
    muteStream (joinRoom maxRooms st sid (.str rid) "host" now).1 sid =
      [.chan sid rid .hostMuted] ∧
    unmuteStream (joinRoom maxRooms st sid (.str rid) "host" now).1 sid =
      [.chan sid rid .hostUnmuted] ∧
    (inChan (joinRoom maxRooms st sid (.str rid) "host" now).1 rid h = true →
      delivered (joinRoom maxRooms st sid (.str rid) "host" now).1
        (muteStream (joinRoom maxRooms st sid (.str rid) "host" now).1 sid)
        h .hostMuted = true) := by
  have hemp : rid.isEmpty = false := by
    simp only [roomIdInvalid, Bool.or_eq_false_iff] at hval
    exact hval.1
  have hval' : roomIdInvalid (.str rid) = false := by
    simp [roomIdInvalid, hemp] at hval ⊢
    omega
  have hsome : (alGet st.rooms rid).isNone = false := by simp [hroom]
  have hJ : joinRoom maxRooms st sid (.str rid) "host" now =
      ({ rooms := alSet st.rooms rid room,
         sessions := alSet st.sessions sid
           { roomId := some rid, role := some "host",
             channels :=
               setAdd ((alGet st.sessions sid).getD freshSession).channels rid } },
       [.direct sid (.error "Room already has a host")]) := by
    simp only [joinRoom, hval', Bool.false_eq_true, if_false, hsome,
      Bool.false_and, hroom, Option.getD_some, handleHostJoin]
    simp [hroom, hhost]
  rw [hJ]
  have hM : muteStream
      ({ rooms := alSet st.rooms rid room,
         sessions := alSet st.sessions sid
           { roomId := some rid, role := some "host",
             channels :=
               setAdd ((alGet st.sessions sid).getD freshSession).channels rid } } :
        SrvState) sid = [.chan sid rid .hostMuted] := by
    simp [muteStream, alGet_alSet_self, hemp]
  refine ⟨rfl, hM, ?_, ?_⟩
  · simp [unmuteStream, alGet_alSet_self, hemp]
  · intro hch
    rw [hM]
    simp [delivered, canReceive, Emit.event, hne, hch]

/-- Closed instance of `claim8_mute_guard`: the rejected host `F` mutes and
the real host `H` receives `host-muted`. -/
theorem claim8_mute_guard_witness :
    (joinRoom 100 demoListenerJoin.1 "F" (.str "R1") "host" 0).2 =
      [.direct "F" (.error "Room already has a host")] ∧
    muteStream (joinRoom 100 demoListenerJoin.1 "F" (.str "R1") "host" 0).1 "F" =
      [.chan "F" "R1" .hostMuted] ∧
    unmuteStream (joinRoom 100 demoListenerJoin.1 "F" (.str "R1") "host" 0).1 "F" =
      [.chan "F" "R1" .hostUnmuted] ∧
    (inChan (joinRoom 100 demoListenerJoin.1 "F" (.str "R1") "host" 0).1 "R1" "H" = true →
      delivered (joinRoom 100 demoListenerJoin.1 "F" (.str "R1") "host" 0).1
        (muteStream (joinRoom 100 demoListenerJoin.1 "F" (.str "R1") "host" 0).1 "F")
        "H" .hostMuted = true) :=
  claim8_mute_guard 100 demoListenerJoin.1 "F" "R1" 0
    { host := some "H", listeners := ["L"], createdAt := 0 } "H"
    (by decide) rfl rfl (by decide)

/-- Claim C3, counterexample: after `F`'s host join into the already-hosted
room `R1` is rejected with "Room already has a host", `F`'s session is NOT
left unjoined — its `roomId` and `role` fields are recorded and it has entered
the `R1` channel, contradicting the claim that on any join failure the session
keeps no room id and no role. -/
theorem claim3_session_kept_on_rejected_host :
    demoSecondHost.2 = [.direct "F" (.error "Room already has a host")] ∧
    alGet demoSecondHost.1.sessions "F" =
      some { roomId := some "R1", role := some "host", channels := ["R1"] } :=
  ⟨rfl, rfl⟩

/-- Claim C3 as amended: a join failing validation (`InvalidRoomId`) or room
creation (`CapacityExceeded`) leaves the entire server state unchanged; a join
failing with `RoomAlreadyHosted` leaves the registry unchanged (the socket is
added to neither the `host` field nor any listener set) but does record the
socket's `roomId` and `role` and its membership in the room channel. -/
theorem claim3_failed_join_state (maxRooms : Nat) (st : SrvState) (sid : String)
    (role : String) (now : Nat) :
    (∀ arg, roomIdInvalid arg = true →
      joinRoom maxRooms st sid arg role now =
        (st, [.direct sid (.error "Invalid room ID")])) ∧
    (∀ rid, roomIdInvalid (.str rid) = false → alGet st.rooms rid = none →
      st.rooms.length ≥ maxRooms →
      joinRoom maxRooms st sid (.str rid) role now =
        (st, [.direct sid (.error "Server at capacity")])) ∧
    (∀ rid room h, roomIdInvalid (.str rid) = false →
      alGet st.rooms rid = some room → room.host = some h →
      (joinRoom maxRooms st sid (.str rid) "host" now).1.rooms = st.rooms ∧
      alGet (joinRoom maxRooms st sid (.str rid) "host" now).1.sessions sid =
        some { roomId := some rid, role := some "host",
               channels :=
                 setAdd ((alGet st.sessions sid).getD freshSession).channels rid }) := by
  refine ⟨?_, ?_, ?_⟩
  · intro arg hbad
    cases arg with
    | missing => simp [joinRoom, roomIdInvalid]
    | nonString => simp [joinRoom, roomIdInvalid]
    | str s => simp [joinRoom, hbad]
  · intro rid hval habs hcap
    simp [joinRoom, hval, habs, hcap]
  · intro rid room h hval hroom hhost
    have hsome : (alGet st.rooms rid).isNone = false := by simp [hroom]
    have hJ : joinRoom maxRooms st sid (.str rid) "host" now =
        ({ rooms := alSet st.rooms rid room,
           sessions := alSet st.sessions sid
             { roomId := some rid, role := some "host",
               channels :=
                 setAdd ((alGet st.sessions sid).getD freshSession).channels rid } },
         [.direct sid (.error "Room already has a host")]) := by
      simp only [joinRoom, hval, Bool.false_eq_true, if_false, hsome,
        Bool.false_and, hroom, Option.getD_some, handleHostJoin]
      simp [hroom, hhost]
    rw [hJ]
    exact ⟨alSet_eq_self st.rooms rid room hroom, alGet_alSet_self _ _ _⟩

/-- Closed instance of `claim3_failed_join_state`: each failure mode at a
concrete input. -/
theorem claim3_failed_join_state_witness :
    joinRoom 100 demoHostJoin.1 "Z" .missing "listener" 0 =
      (demoHostJoin.1, [.direct "Z" (.error "Invalid room ID")]) ∧
    joinRoom 1 demoHostJoin.1 "Z" (.str "R9") "listener" 0 =
      (demoHostJoin.1, [.direct "Z" (.error "Server at capacity")]) ∧
    ((joinRoom 100 demoHostJoin.1 "Z" (.str "R1") "host" 0).1.rooms =
        demoHostJoin.1.rooms ∧
      alGet (joinRoom 100 demoHostJoin.1 "Z" (.str "R1") "host" 0).1.sessions "Z" =
        some { roomId := some "R1", role := some "host", channels := ["R1"] }) := by
  have h100 := claim3_failed_join_state 100 demoHostJoin.1 "Z" "host" 0
  have h1 := claim3_failed_join_state 1 demoHostJoin.1 "Z" "listener" 0
  refine ⟨?_, ?_, ?_⟩
  · exact (claim3_failed_join_state 100 demoHostJoin.1 "Z" "listener" 0).1
      .missing rfl
  · exact h1.2.1 "R9" (by decide) rfl (by decide)
  · exact h100.2.2 "R1" { host := some "H", listeners := [], createdAt := 0 } "H"
      (by decide) rfl rfl

/-- Claim C6, counterexample: the empty string is a supplied string of length
at most 10, yet the guard `!roomId || ...` rejects it, so the join fails with
`InvalidRoomId` outside the claim's "missing, not a string, or longer than 10
characters" enumeration. -/
theorem claim6_empty_string_rejected :
    joinRoom 100 st0 "s" (.str "") "listener" 0 =
      (st0, [.direct "s" (.error "Invalid room ID")]) ∧
    ("" : String).length ≤ 10 :=
  ⟨rfl, by decide⟩

/-- Claim C6 as amended: validation runs before any other processing of a
join (an invalid id yields exactly the `Invalid room ID` error with the state
untouched, from every state), and it fails exactly when the room id is
missing, not a string, empty, or longer than 10 characters; every non-empty
string of length at most 10 passes. -/
theorem claim6_roomid_validation (maxRooms : Nat) (st : SrvState)
    (sid role : String) (now : Nat) :
    (∀ s : String, roomIdInvalid (.str s) =
      (s.isEmpty || decide (s.length > 10))) ∧
    roomIdInvalid .missing = true ∧
    roomIdInvalid .nonString = true ∧
    (∀ s : String, s.isEmpty = false → s.length ≤ 10 →
      roomIdInvalid (.str s) = false) ∧
    (∀ arg, roomIdInvalid arg = true →
      joinRoom maxRooms st sid arg role now =
        (st, [.direct sid (.error "Invalid room ID")])) := by
  refine ⟨fun s => rfl, rfl, rfl, ?_, ?_⟩
  · intro s hemp hlen
    simp [roomIdInvalid, hemp]
    omega
  · intro arg hbad
    cases arg with
    | missing => simp [joinRoom, roomIdInvalid]
    | nonString => simp [joinRoom, roomIdInvalid]
    | str s => simp [joinRoom, hbad]

/-- Closed instance of `claim6_roomid_validation` at concrete inputs. -/
theorem claim6_roomid_validation_witness :
    roomIdInvalid (.str "ABC123") = false ∧
    joinRoom 100 st0 "s" (.str "ABCDEFGHIJK") "listener" 0 =
      (st0, [.direct "s" (.error "Invalid room ID")]) := by
  have h := claim6_roomid_validation 100 st0 "s" "listener" 0
  exact ⟨h.2.2.2.1 "ABC123" (by decide) (by decide),
    h.2.2.2.2 (.str "ABCDEFGHIJK") (by decide)⟩

/-- The listener count the source broadcasts after `sid` joins room `rid`:
the size of the room's listener set once `sid` has been added (a fresh empty
room when `rid` is not yet registered). -/
def countAfterJoin (st : SrvState) (rid sid : String) : Nat :=
  (setAdd ((alGet st.rooms rid).getD
    { host := none, listeners := [], createdAt := 0 }).listeners sid).length

/-- Claim C2, counterexample: in the concrete run where host `H` then
listener `L` join `R1`, `L` is in the room's listener set but the
`listener-count-updated{count:1}` broadcast — sent with `socket.to(roomId)`,
which excludes the sender — is NOT delivered to the newly joined listener
`L`, contradicting "including the newly joined listener itself". -/
theorem claim2_count_skips_new_listener :
    ((alGet demoListenerJoin.1.rooms "R1").getD
      { host := none, listeners := [], createdAt := 0 }).listeners.contains "L"
      = true ∧
    (Emit.chan "L" "R1" (.listenerCountUpdated 1)) ∈ demoListenerJoin.2 ∧
    delivered demoListenerJoin.1 demoListenerJoin.2 "L"
      (.listenerCountUpdated 1) = false := by
  exact ⟨rfl, by decide, rfl⟩

/-- Claim C2 as amended: every listener join broadcasts
`listener-count-updated` carrying the new listener-set size to the room
channel; every room-channel member other than the joiner receives it, but the
newly joined listener itself — excluded as the sender of the broadcast — does
not. -/
theorem claim2_listener_count_broadcast (maxRooms : Nat) (st : SrvState)
    (sid rid : String) (now : Nat)
    (hval : roomIdInvalid (.str rid) = false)
    (hcap : (alGet st.rooms rid).isSome = true ∨ st.rooms.length < maxRooms) :
    (Emit.chan sid rid (.listenerCountUpdated (countAfterJoin st rid sid)))
      ∈ (joinRoom maxRooms st sid (.str rid) "listener" now).2 ∧
    delivered (joinRoom maxRooms st sid (.str rid) "listener" now).1
      (joinRoom maxRooms st sid (.str rid) "listener" now).2 sid
      (.listenerCountUpdated (countAfterJoin st rid sid)) = false ∧
    (∀ t, t ≠ sid →
      inChan (joinRoom maxRooms st sid (.str rid) "listener" now).1 rid t = true →
      delivered (joinRoom maxRooms st sid (.str rid) "listener" now).1
        (joinRoom maxRooms st sid (.str rid) "listener" now).2 t
        (.listenerCountUpdated (countAfterJoin st rid sid)) = true) := by
  rcases hroom : alGet st.rooms rid with _ | r
  · have hlt : st.rooms.length < maxRooms := by
      rcases hcap with hc | hc
      · rw [hroom] at hc; simp at hc
      · exact hc
    have hJ : joinRoom maxRooms st sid (.str rid) "listener" now =
        ({ rooms := alSet st.rooms rid
             { host := none, listeners := [sid], createdAt := now },
           sessions := alSet st.sessions sid
             { roomId := some rid, role := some "listener",
               channels :=
                 setAdd ((alGet st.sessions sid).getD freshSession).channels rid } },
         [.direct sid (.listenerJoinedRoom rid),
          .chan sid rid (.listenerCountUpdated 1)]) := by
      have hge : decide (st.rooms.length ≥ maxRooms) = false := by
        simp only [decide_eq_false_iff_not]
        omega
      simp only [joinRoom, hval, Bool.false_eq_true, if_false, hroom,
        Option.isNone_none, Bool.true_and, hge, handleListenerJoin,
        Option.getD_none, alGet_alSet_self, Option.getD_some]
      simp [setAdd, alGet_alSet_self, alSet_alSet]
    have hcnt : countAfterJoin st rid sid = 1 := by
      simp [countAfterJoin, hroom, setAdd]
    rw [hJ, hcnt]
    refine ⟨by simp, by simp [delivered, canReceive, Emit.event], ?_⟩
    intro t ht hch
    simp [delivered, canReceive, Emit.event, ht, hch]
  · have hJoined : ∀ hostEmits : List Emit,
        hostEmits = (match r.host with
          | some h => [Emit.chan sid h (.listenerJoinedId sid),
                       Emit.direct sid .hostConnected]
          | none => []) →
        joinRoom maxRooms st sid (.str rid) "listener" now =
        ({ rooms := alSet st.rooms rid
             { r with listeners := setAdd r.listeners sid },
           sessions := alSet st.sessions sid
             { roomId := some rid, role := some "listener",
               channels :=
                 setAdd ((alGet st.sessions sid).getD freshSession).channels rid } },
         .direct sid (.listenerJoinedRoom rid) :: hostEmits ++
           [.chan sid rid
             (.listenerCountUpdated (setAdd r.listeners sid).length)]) := by
      intro hostEmits hhe
      have hsome : (alGet st.rooms rid).isNone = false := by simp [hroom]
      simp only [joinRoom, hval, Bool.false_eq_true, if_false, hsome,
        Bool.false_and, hroom, Option.getD_some, handleListenerJoin]
      subst hhe
      simp [hroom]
    have hcnt : countAfterJoin st rid sid = (setAdd r.listeners sid).length := by
      simp [countAfterJoin, hroom]
    rcases hh : r.host with _ | hostId
    · rw [hJoined [] (by rw [hh]), hcnt]
      refine ⟨by simp, by simp [delivered, canReceive, Emit.event], ?_⟩
      intro t ht hch
      simp [delivered, canReceive, Emit.event, ht, hch]
    · rw [hJoined [Emit.chan sid hostId (.listenerJoinedId sid),
          Emit.direct sid .hostConnected] (by rw [hh]), hcnt]
      refine ⟨by simp, by simp [delivered, canReceive, Emit.event], ?_⟩
      intro t ht hch
      simp [delivered, canReceive, Emit.event, ht, hch]

/-- Closed instance of `claim2_listener_count_broadcast`: listener `L2` joins
the hosted room `R1`; the host can receive the count but `L2` cannot. -/
theorem claim2_listener_count_broadcast_witness :
    (Emit.chan "L2" "R1"
        (.listenerCountUpdated (countAfterJoin demoListenerJoin.1 "R1" "L2")))
      ∈ (joinRoom 100 demoListenerJoin.1 "L2" (.str "R1") "listener" 0).2 ∧
    delivered (joinRoom 100 demoListenerJoin.1 "L2" (.str "R1") "listener" 0).1
      (joinRoom 100 demoListenerJoin.1 "L2" (.str "R1") "listener" 0).2 "L2"
      (.listenerCountUpdated (countAfterJoin demoListenerJoin.1 "R1" "L2"))
      = false ∧
    (∀ t, t ≠ "L2" →
      inChan (joinRoom 100 demoListenerJoin.1 "L2" (.str "R1") "listener" 0).1
        "R1" t = true →
      delivered
        (joinRoom 100 demoListenerJoin.1 "L2" (.str "R1") "listener" 0).1
        (joinRoom 100 demoListenerJoin.1 "L2" (.str "R1") "listener" 0).2 t
        (.listenerCountUpdated (countAfterJoin demoListenerJoin.1 "R1" "L2"))
        = true) :=
  claim2_listener_count_broadcast 100 demoListenerJoin.1 "L2" "R1" 0
    (by decide) (Or.inl rfl)

/-- Claim C10: a join with a valid id for an absent room and a role that is
neither `host` nor `listener` still creates the room and records the session's
`roomId` and `role`, but adds the socket to neither the `host` field nor the
listener set and emits nothing; that socket's disconnect runs no cleanup
branch (the room survives the immediate-delete path untouched), and only the
periodic sweep removes the room once its age exceeds the timeout. -/
theorem claim10_unknown_role (maxRooms : Nat) (st : SrvState)
    (sid rid role : String) (now : Nat)
    (hval : roomIdInvalid (.str rid) = false)
    (hnew : alGet st.rooms rid = none)
    (hcap : st.rooms.length < maxRooms)
    (hrole1 : role ≠ "host") (hrole2 : role ≠ "listener") :
    alGet (joinRoom maxRooms st sid (.str rid) role now).1.rooms rid =
      some { host := none, listeners := [], createdAt := now } ∧
    alGet (joinRoom maxRooms st sid (.str rid) role now).1.sessions sid =
      some { roomId := some rid, role := some role,
             channels :=
               setAdd ((alGet st.sessions sid).getD freshSession).channels rid } ∧
    (joinRoom maxRooms st sid (.str rid) role now).2 = [] ∧
    handleDisconnect (joinRoom maxRooms st sid (.str rid) role now).1 sid =
      ((joinRoom maxRooms st sid (.str rid) role now).1, []) ∧
    (∀ timeoutH now', now' > now + timeoutH * 60 * 60 * 1000 →
      alGet (sweepRooms timeoutH
        (joinRoom maxRooms st sid (.str rid) role now).1 now').rooms rid = none) := by
  have hge : decide (st.rooms.length ≥ maxRooms) = false := by
    simp only [decide_eq_false_iff_not]
    omega
  have hJ : joinRoom maxRooms st sid (.str rid) role now =
      ({ rooms := alSet st.rooms rid
           { host := none, listeners := [], createdAt := now },
         sessions := alSet st.sessions sid
           { roomId := some rid, role := some role,
             channels :=
               setAdd ((alGet st.sessions sid).getD freshSession).channels rid } },
       []) := by
    simp only [joinRoom, hval, Bool.false_eq_true, if_false, hnew,
      Option.isNone_none, Bool.true_and, hge, hrole1, hrole2]
    simp [hrole1, hrole2]
  rw [hJ]
  refine ⟨alGet_alSet_self _ _ _, alGet_alSet_self _ _ _, rfl, ?_, ?_⟩
  · have hroleNe1 : (some role = some "host") = False := by simp [hrole1]
    have hroleNe2 : (some role = some "listener") = False := by simp [hrole2]
    simp [handleDisconnect, alGet_alSet_self, hroleNe1, hroleNe2]
  · intro timeoutH now' hage
    have hrooms : alSet st.rooms rid
        { host := none, listeners := [], createdAt := now } =
        st.rooms ++ [(rid, { host := none, listeners := [], createdAt := now })] :=
      alSet_of_none st.rooms rid _ hnew
    simp only [sweepRooms, hrooms, List.filter_append]
    have hold : decide (now' - now > timeoutH * 60 * 60 * 1000) = true := by
      simp only [decide_eq_true_eq]
      omega
    rw [alGet_append_left_none _ _ _ (alGet_filter_none _ _ _ hnew)]
    simp [List.filter, hold, alGet]

/-- Closed instance of `claim10_unknown_role` at role `"weird"`. -/
theorem claim10_unknown_role_witness :
    alGet (joinRoom 100 st0 "W" (.str "R2") "weird" 7).1.rooms "R2" =
      some { host := none, listeners := [], createdAt := 7 } ∧
    alGet (joinRoom 100 st0 "W" (.str "R2") "weird" 7).1.sessions "W" =
      some { roomId := some "R2", role := some "weird", channels := ["R2"] } ∧
    (joinRoom 100 st0 "W" (.str "R2") "weird" 7).2 = [] ∧
    handleDisconnect (joinRoom 100 st0 "W" (.str "R2") "weird" 7).1 "W" =
      ((joinRoom 100 st0 "W" (.str "R2") "weird" 7).1, []) ∧
    (∀ timeoutH now', now' > 7 + timeoutH * 60 * 60 * 1000 →
      alGet (sweepRooms timeoutH
        (joinRoom 100 st0 "W" (.str "R2") "weird" 7).1 now').rooms "R2" = none) :=
  claim10_unknown_role 100 st0 "W" "R2" "weird" 7 (by decide) rfl
    (by decide) (by decide) (by decide)

/-- Claim C7: under the per-sender rate limit, the forwarded messages of any
monotone arrival sequence are pairwise at least 50ms apart, and a message
arriving less than 50ms after the sender's last forwarded message is dropped:
the relay neither emits anything (no forwarding, no feedback) nor changes the
rate-limit state (no queueing). -/
theorem claim7_rate_limit :
    (∀ (sid toId : String) (rl : List (String × Nat)) (ts : List (SigKind × Nat)),
      List.Chain' (· ≤ ·) (ts.map Prod.snd) →
      List.Pairwise (fun a b => a + 50 ≤ b) (runSignals sid toId rl ts).1) ∧
    (∀ (rl : List (String × Nat)) (k : SigKind) (sid toId : String) (now : Nat),
      now < (alGet rl sid).getD 0 + 50 →
      signalRelay rl k sid toId now = (rl, [])) := by
  constructor
  · intro sid toId rl ts hsorted
    haveI : IsTrans Nat (fun a b => a + 50 ≤ b) := ⟨fun a b c hab hbc => by omega⟩
    have h := (runSignals_chain sid toId ts rl hsorted).tail
    simpa using List.chain'_iff_pairwise.mp h
  · intro rl k sid toId now hlt
    have hdrop : now - (alGet rl sid).getD 0 < 50 := by omega
    simp [signalRelay, rateLimitSignal, hdrop]

/-- Closed instance of `claim7_rate_limit`: a concrete burst and a concrete
dropped message. -/
theorem claim7_rate_limit_witness :
    List.Pairwise (fun a b => a + 50 ≤ b)
      (runSignals "a" "b" []
        [(.offer, 100), (.offer, 120), (.ice, 149), (.ice, 151), (.answer, 300)]).1 ∧
    signalRelay [("a", 100)] .offer "a" "b" 130 = ([("a", 100)], []) :=
  ⟨claim7_rate_limit.1 "a" "b" []
      [(.offer, 100), (.offer, 120), (.ice, 149), (.ice, 151), (.answer, 300)]
      (by simp [List.chain'_cons]),
    claim7_rate_limit.2 [("a", 100)] .offer "a" "b" 130 (by decide)⟩

end DJPilot
